import Mathlib

/-!
Verification of the form-helper module of this repository: the string and
date utilities (`getFullName`, `days`), the generic request dispatcher
(`fetchAPI`, in its two variants), and the endpoint wrappers built on it.
Pure JS functions are embedded as Lean functions; the promise chain of the
dispatcher is embedded as an explicit promise-result type driven by an
abstract transport outcome.
-/

/-- Model of the character class trimmed by JS `String.prototype.trim`
(ECMAScript WhiteSpace and LineTerminator code points; the common ones
are listed explicitly). -/
def isJSWhitespace (c : Char) : Bool :=
  c = ' ' || c = '\t' || c = '\n' || c = '\r' ||
  c = '\u000b' || c = '\u000c' || c = '\u00a0' || c = '\ufeff' ||
  c = '\u2028' || c = '\u2029'

/-- Model of JS `String.prototype.trim`: drop the JS whitespace characters
from both ends of the string. -/
def jsTrim (s : String) : String :=
  String.mk (((s.data.dropWhile isJSWhitespace).reverse.dropWhile isJSWhitespace).reverse)

/-- Embeds `getFullName` from `src/blocks/form/functions.js` lines 8-10
(identical in `src/unnamed/part_000`): the template literal
interpolating the two names around a single space, then `.trim()`. -/
def getFullName (firstname lastname : String) : String :=
  jsTrim (firstname ++ " " ++ lastname)

/-- Proleptic-Gregorian leap-year test, as in the ECMAScript date model. -/
def isLeapYear (y : Nat) : Bool :=
  y % 4 = 0 && (y % 100 ≠ 0 || y % 400 = 0)

/-- Length in days of month `m` (1-12) of year `y`. -/
def daysInMonth (y m : Nat) : Nat :=
  if m = 2 then (if isLeapYear y then 29 else 28)
  else if m = 4 || m = 6 || m = 9 || m = 11 then 30
  else 31

/-- Days in year `y` strictly before the first day of month `m` (1-12). -/
def daysBeforeMonth (y m : Nat) : Nat :=
  let feb := if isLeapYear y then 29 else 28
  match m with
  | 1 => 0
  | 2 => 31
  | 3 => 31 + feb
  | 4 => 62 + feb
  | 5 => 92 + feb
  | 6 => 123 + feb
  | 7 => 153 + feb
  | 8 => 184 + feb
  | 9 => 215 + feb
  | 10 => 245 + feb
  | 11 => 276 + feb
  | _ => 306 + feb

/-- Number of leap years in the interval `[0, y)` of the proleptic
Gregorian calendar (year 0 is a leap year). -/
def leapYearsBefore (y : Nat) : Nat :=
  (y + 3) / 4 + (y + 399) / 400 - (y + 99) / 100

/-- Day number of the civil date `y-m-d` counted from 0000-01-01. -/
def civilDays (y m d : Nat) : Nat :=
  365 * y + leapYearsBefore y + daysBeforeMonth y m + (d - 1)

/-- Milliseconds per day, the divisor `1000 * 60 * 60 * 24` of `days`. -/
def msPerDay : Int := 1000 * 60 * 60 * 24

/-- Epoch milliseconds (UTC midnight) of the civil date `y-m-d`. -/
def epochMs (y m d : Nat) : Int :=
  ((civilDays y m d : Int) - (civilDays 1970 1 1 : Int)) * msPerDay

/-- Numeric value of a decimal digit character, `none` otherwise. -/
def digitVal (c : Char) : Option Nat :=
  if c.isDigit then some (c.toNat - 48) else none

/-- Model of `new Date(string)` on the ECMAScript Date Time String Format
restricted to its date-only production `YYYY-MM-DD` (the format the spec
exercises); any other string is modelled as yielding an invalid date
(`getTime()` is `NaN`), which is what V8 does for strings such as
`"not-a-date"`. Returns the epoch milliseconds, or `none` for NaN. -/
def parseJSDate (s : String) : Option Int :=
  match s.data with
  | [y1, y2, y3, y4, '-', m1, m2, '-', d1, d2] =>
    match digitVal y1, digitVal y2, digitVal y3, digitVal y4,
          digitVal m1, digitVal m2, digitVal d1, digitVal d2 with
    | some a, some b, some c, some d, some e, some f, some g, some h =>
      let y := ((a * 10 + b) * 10 + c) * 10 + d
      let m := e * 10 + f
      let dy := g * 10 + h
      if 1 ≤ m && m ≤ 12 && 1 ≤ dy && dy ≤ daysInMonth y m then
        some (epochMs y m dy)
      else none
    | _, _, _, _, _, _, _, _ => none
  | _ => none

/-- An argument of `days`: the source applies
`typeof x === 'string' ? new Date(x) : x`, so an argument is either a
string or an already-built Date value, modelled by its `getTime()`
result (`none` standing for an Invalid Date whose time is `NaN`). -/
inductive DateInput where
  | str (s : String)
  | dateVal (t : Option Int)

/-- The `getTime()` value of a `days` argument after the string branch:
strings go through `new Date(string)`, date values are used as given. -/
def toTime : DateInput → Option Int
  | .str s => parseJSDate s
  | .dateVal t => t

/-- Embeds `days` from `src/blocks/form/functions.js` lines 18-29
(identical in `src/unnamed/part_000`): coerce each argument through
`new Date` when it is a string, return `0` if either `getTime()` is
`NaN`, else `Math.floor(Math.abs(end - start) / 86400000)`. -/
def days (endDate startDate : DateInput) : Int :=
  match toTime startDate, toTime endDate with
  | some s, some e => Int.ofNat ((e - s).natAbs / 86400000)
  | _, _ => 0

/-- A JSON-expressible JS value, the payloads and decoded response bodies
flowing through the dispatcher. Numbers are restricted to the integers
actually used by this module. -/
inductive JSValue where
  | nullV
  | bool (b : Bool)
  | num (n : Int)
  | str (s : String)
  | arr (elems : List JSValue)
  | obj (fields : List (String × JSValue))

/-- Four uppercase-hex digits of `n`, as in the `\u` escapes produced by
`JSON.stringify` for control characters. -/
def hex4 (n : Nat) : String :=
  let dig := fun k => String.mk [Nat.digitChar (k % 16)]
  dig (n / 4096) ++ dig (n / 256 % 16) ++ dig (n / 16 % 16) ++ dig (n % 16)

/-- Escaping of one character inside a JSON string literal, following
the QuoteJSONString algorithm of `JSON.stringify`. -/
def escapeJSONChar (c : Char) : String :=
  if c = '"' then "\\\"" else if c = '\\' then "\\\\"
  else if c = '\u0008' then "\\b" else if c = '\u000c' then "\\f"
  else if c = '\n' then "\\n" else if c = '\r' then "\\r"
  else if c = '\t' then "\\t"
  else if c.toNat < 32 then "\\u" ++ hex4 c.toNat
  else String.mk [c]

/-- A JSON string literal for `s`, as produced by `JSON.stringify`. -/
def quoteJSON (s : String) : String :=
  "\"" ++ String.join (s.data.map escapeJSONChar) ++ "\""

mutual

/-- Serialization of a JSON-expressible value, following `JSON.stringify`:
object fields in insertion order, no whitespace. -/
def stringifyJSValue : JSValue → String
  | .nullV => "null"
  | .bool true => "true"
  | .bool false => "false"
  | .num n => toString n
  | .str s => quoteJSON s
  | .arr elems => "[" ++ stringifyElems elems ++ "]"
  | .obj fields => "\x7b" ++ stringifyFields fields ++ "\x7d"

/-- Comma-joined serialization of array elements. -/
def stringifyElems : List JSValue → String
  | [] => ""
  | [v] => stringifyJSValue v
  | v :: w :: rest => stringifyJSValue v ++ "," ++ stringifyElems (w :: rest)

/-- Comma-joined serialization of object fields. -/
def stringifyFields : List (String × JSValue) → String
  | [] => ""
  | [(k, v)] => quoteJSON k ++ ":" ++ stringifyJSValue v
  | (k, v) :: f :: rest =>
    quoteJSON k ++ ":" ++ stringifyJSValue v ++ "," ++ stringifyFields (f :: rest)

end

/-- A value passed as the `body` argument of the dispatcher. JSON-expressible
values serialize; `unserializable m` stands for a JS value on which
`JSON.stringify` throws (circular structure, BigInt, ...) a TypeError
whose `message` is `m`. -/
inductive JSBody where
  | json (v : JSValue)
  | unserializable (errMessage : String)

/-- Outcome of `JSON.stringify` on a body value: the serialized text, or
the thrown error's message. -/
def jsonStringify : JSBody → Except String String
  | .json v => .ok (stringifyJSValue v)
  | .unserializable m => .error m

/-- A settled JS promise: resolved with a value, or rejected with an
error whose `message` field is carried. -/
inductive JSPromise (α : Type) where
  | resolved (v : α)
  | rejected (errMessage : String)

/-- Model of `.then(f)`: a rejection passes through, a resolution feeds
the handler, whose own throw or returned promise is adopted. -/
def JSPromise.thenBind {α β : Type} : JSPromise α → (α → JSPromise β) → JSPromise β
  | .resolved v, f => f v
  | .rejected m, _ => .rejected m

/-- Model of `.catch(h)` with a handler that returns plainly: a rejection
is recovered to a resolution, a resolution passes through. -/
def JSPromise.catchWith {α : Type} : JSPromise α → (String → α) → JSPromise α
  | .rejected m, h => .resolved (h m)
  | .resolved v, _ => .resolved v

/-- Outcome of calling `.json()` on a response: the decoded body, or a
rejection with the decode error's message. -/
inductive DecodeOutcome where
  | ok (v : JSValue)
  | err (msg : String)

/-- An HTTP response as the dispatcher observes it: its status code and
what `.json()` does on its body. -/
structure JSResponse where
  status : Nat
  decode : DecodeOutcome

/-- Model of `Response.ok`: status in the inclusive range 200-299. -/
def JSResponse.ok (r : JSResponse) : Bool :=
  200 ≤ r.status && r.status ≤ 299

/-- Behaviour of the transport for one call: the `fetch` promise either
rejects (network failure) or resolves with a response. -/
inductive FetchOutcome where
  | networkError (msg : String)
  | gotResponse (r : JSResponse)

/-- The promise returned by `fetch` under a given transport outcome. -/
def jsFetch : FetchOutcome → JSPromise JSResponse
  | .networkError m => .rejected m
  | .gotResponse r => .resolved r

/-- The promise returned by `response.json()`. -/
def responseJson (r : JSResponse) : JSPromise JSValue :=
  match r.decode with
  | .ok v => .resolved v
  | .err m => .rejected m

/-- An opaque `FormData` payload (the browser object holding form
entries), as handed to the upload wrappers. -/
structure FormData where
  entries : List (String × String)

/-- The body slot of an issued request: absent, JSON text set by
`options.body = JSON.stringify(body)`, or a form payload passed as-is. -/
inductive RequestBody where
  | empty
  | jsonText (s : String)
  | form (fd : FormData)

/-- The request an embedded function hands to `fetch`: URL, method,
headers object and body slot. -/
structure HttpRequest where
  url : String
  method : String
  headers : List (String × String)
  body : RequestBody

/-- JS object-spread merge `\x7b...base, ...extra\x7d` as observed through
property lookup: keys of `extra` override those of `base`, fresh keys of
`extra` are appended. -/
def jsSpreadMerge (base extra : List (String × String)) : List (String × String) :=
  base.map (fun kv => (kv.1, (extra.lookup kv.1).getD kv.2)) ++
    extra.filter (fun kv => (base.lookup kv.1).isNone)

/-- The request `fetchAPI` constructs before calling `fetch`, or `none`
when `JSON.stringify` throws so the `fetch` call is never reached. -/
def builtRequest (baseURL endpoint method : String) (body : Option JSBody)
    (headers : List (String × String)) : Option HttpRequest :=
  match body with
  | none => some ⟨baseURL ++ endpoint, method, headers, .empty⟩
  | some b =>
    match jsonStringify b with
    | .ok s => some ⟨baseURL ++ endpoint, method, headers, .jsonText s⟩
    | .error _ => none

namespace BlocksForm

/-- Embeds `API_BASE_URL` from `src/blocks/form/functions.js`. -/
def API_BASE_URL : String := "http://bumblebee:3000/api"

/-- The literal error object of the `catch` handlers of `fetchAPI` in
`src/blocks/form/functions.js`. -/
def networkErrorRecord : JSValue :=
  .obj [("status", .str "FAILURE"), ("message", .str "Network error"),
        ("errorCode", .str "NETWORK_ERROR")]

/-- Embeds `fetchAPI` from `src/blocks/form/functions.js` lines 44-67:
build options with a JSON Content-Type header, serialize a truthy body,
then `fetch(...).then(response => response.json()).catch(...)`; the
surrounding `try/catch` converts a synchronous throw (the
`JSON.stringify` call) into `Promise.resolve` of the same error object.
Returns the request handed to `fetch` (when one is issued) paired with
the settled promise under transport outcome `w`. -/
def fetchAPI (w : FetchOutcome) (endpoint method : String) (body : Option JSBody) :
    Option HttpRequest × JSPromise JSValue :=
  match body with
  | some (.unserializable _) => (none, .resolved networkErrorRecord)
  | _ =>
    (builtRequest API_BASE_URL endpoint method body
       [("Content-Type", "application/json")],
     ((jsFetch w).thenBind responseJson).catchWith (fun _ => networkErrorRecord))

end BlocksForm

namespace Part000

/-- Embeds `API_BASE_URL` from `src/unnamed/part_000`. -/
def API_BASE_URL : String := "https://forms-api.azure-api.net/api"

/-- The error object built by the `catch` handlers of `fetchAPI` in
`src/unnamed/part_000`, with the caught error's message. -/
def apiErrorRecord (msg : String) : JSValue :=
  .obj [("code", .str "API_ERROR"), ("value", .num 500), ("message", .str msg)]

/-- The error object built by the `catch` handlers of the two upload
wrappers in `src/unnamed/part_000`. -/
def uploadErrorRecord (msg : String) : JSValue :=
  .obj [("code", .str "UPLOAD_ERROR"), ("value", .num 500), ("message", .str msg)]

/-- Embeds `fetchAPI` from `src/unnamed/part_000` lines 45-82: build
options with a JSON Content-Type header spread-merged with the extra
headers, serialize a truthy body, then
`fetch(...).then(response => ...).catch(...)` where the then-handler
throws `Error` with message `API call failed with status: S` when
`response.ok` is false and otherwise returns `response.json()`; the
`catch` (and the outer `try/catch` for a synchronous `JSON.stringify`
throw) resolves with the `API_ERROR` record carrying the error message. -/
def fetchAPI (w : FetchOutcome) (endpoint method : String) (body : Option JSBody)
    (headers : List (String × String)) : Option HttpRequest × JSPromise JSValue :=
  match body with
  | some (.unserializable m) => (none, .resolved (apiErrorRecord m))
  | _ =>
    (builtRequest API_BASE_URL endpoint method body
       (jsSpreadMerge [("Content-Type", "application/json")] headers),
     ((jsFetch w).thenBind (fun r =>
        if r.ok then responseJson r
        else .rejected ("API call failed with status: " ++ toString r.status))).catchWith
       apiErrorRecord)

/-- Embeds `generateOTP` from `src/unnamed/part_000` lines 123-125. -/
def generateOTP (w : FetchOutcome) (mobileNo : Int) :
    Option HttpRequest × JSPromise JSValue :=
  fetchAPI w "/otp/generation" "POST" (some (.json (.obj [("mobileNo", .num mobileNo)]))) []

/-- Embeds `getDocumentById` from `src/unnamed/part_000` lines 219-221
(method and body take `fetchAPI`'s defaults `GET` and `null`). -/
def getDocumentById (w : FetchOutcome) (id : String) :
    Option HttpRequest × JSPromise JSValue :=
  fetchAPI w ("/doc/" ++ id) "GET" none []

/-- Embeds `deleteAllPersonalLoanRequests` from `src/unnamed/part_000`
lines 244-246. -/
def deleteAllPersonalLoanRequests (w : FetchOutcome) :
    Option HttpRequest × JSPromise JSValue :=
  fetchAPI w "/pl" "DELETE" none []

/-- Embeds `uploadMultipleDocuments` from `src/unnamed/part_000` lines
169-183: a raw `fetch` POST to `/docs` whose body is the `FormData`
itself, no headers object, then `.then(r => r.json())` and a `catch`
resolving with the `UPLOAD_ERROR` record. -/
def uploadMultipleDocuments (w : FetchOutcome) (formData : FormData) :
    HttpRequest × JSPromise JSValue :=
  (⟨API_BASE_URL ++ "/docs", "POST", [], .form formData⟩,
   ((jsFetch w).thenBind responseJson).catchWith uploadErrorRecord)

/-- Embeds `uploadDocument` from `src/unnamed/part_000` lines 190-204:
as `uploadMultipleDocuments` but POSTing to `/doc`. -/
def uploadDocument (w : FetchOutcome) (formData : FormData) :
    HttpRequest × JSPromise JSValue :=
  (⟨API_BASE_URL ++ "/doc", "POST", [], .form formData⟩,
   ((jsFetch w).thenBind responseJson).catchWith uploadErrorRecord)

end Part000

/-- Field lookup on a JS object value, `none` on other values. -/
def lookupField (k : String) : JSValue → Option JSValue
  | .obj fields => fields.lookup k
  | _ => none

/-- The uniform error shape of the spec: an error/status code field
(`code` or `errorCode`, the variants' two spellings) and a
human-readable `message` field, both strings. -/
def hasErrorShape (v : JSValue) : Bool :=
  (match lookupField "code" v, lookupField "errorCode" v with
   | some (.str _), _ => true
   | _, some (.str _) => true
   | _, _ => false) &&
  (match lookupField "message" v with
   | some (.str _) => true
   | _ => false)

/-- A dispatcher body argument on which `JSON.stringify` does not throw. -/
def serializableBody : Option JSBody → Bool
  | some (.unserializable _) => false
  | _ => true

/-- Transport outcomes in which the fetch promise rejects or the body
fails JSON decoding (the failure modes of claim C2). -/
def transportOrDecodeFails : FetchOutcome → Bool
  | .networkError _ => true
  | .gotResponse r =>
    match r.decode with
    | .err _ => true
    | .ok _ => false

/-- Transport outcomes on which `fetchAPI` of `src/unnamed/part_000`
takes an error path: network failure, non-2xx status, or decode
failure. -/
def part000Fails : FetchOutcome → Bool
  | .networkError _ => true
  | .gotResponse r =>
    !r.ok ||
      (match r.decode with
       | .err _ => true
       | .ok _ => false)

/-- C3: getFullName returns the trimmed concatenation of its two arguments
with exactly one separating space; in particular getFullName "" "Doe" is
"Doe" and getFullName "" "" is "". -/
theorem getFullName_trimmed_concat :
    (∀ a b : String, getFullName a b = jsTrim (a ++ " " ++ b)) ∧
    getFullName "" "Doe" = "Doe" ∧ getFullName "" "" = "" :=
  ⟨fun _ _ => rfl, by decide, by decide⟩

/-- C4: days returns 0 whenever either argument is not a valid date
(its coerced getTime value is NaN). -/
theorem days_invalid_zero (endDate startDate : DateInput)
    (h : toTime endDate = none ∨ toTime startDate = none) :
    days endDate startDate = 0 := by
  unfold days
  rcases h with h | h
  · rw [h]; cases toTime startDate <;> rfl
  · rw [h]

/-- Witness for C4 at the spec's example input days("not-a-date", "2024-01-01"). -/
theorem days_invalid_zero_witness :
    (toTime (.str "not-a-date") = none ∨ toTime (.str "2024-01-01") = none) ∧
    days (.str "not-a-date") (.str "2024-01-01") = 0 :=
  ⟨Or.inl (by decide),
   days_invalid_zero (.str "not-a-date") (.str "2024-01-01") (Or.inl (by decide))⟩

/-- C5: days is symmetric in its two arguments. -/
theorem days_symm (a b : DateInput) : days a b = days b a := by
  unfold days
  cases toTime a with
  | none => cases toTime b <;> rfl
  | some x =>
    cases toTime b with
    | none => rfl
    | some y =>
      show Int.ofNat ((x - y).natAbs / 86400000) = Int.ofNat ((y - x).natAbs / 86400000)
      have h : (x - y).natAbs = (y - x).natAbs := by omega
      rw [h]

/-- C6: on valid date inputs days returns the absolute whole-day
difference, the floor of |end - start| over 86400000 ms per day. -/
theorem days_valid_diff (endDate startDate : DateInput) (te ts : Int)
    (he : toTime endDate = some te) (hs : toTime startDate = some ts) :
    days endDate startDate = Int.ofNat ((te - ts).natAbs / 86400000) := by
  unfold days
  rw [hs, he]

/-- Witness for C6 at the spec's example days("2024-01-10", "2024-01-01") = 9. -/
theorem days_valid_diff_witness :
    toTime (.str "2024-01-10") = some 1704844800000 ∧
    toTime (.str "2024-01-01") = some 1704067200000 ∧
    days (.str "2024-01-10") (.str "2024-01-01") = 9 :=
  ⟨by decide, by decide,
   (days_valid_diff (.str "2024-01-10") (.str "2024-01-01")
      1704844800000 1704067200000 (by decide) (by decide)).trans (by decide)⟩

/-- C1 counterexample: in the blocks/form variant a non-2xx (404) response
whose body decodes resolves with the raw decoded body, which does not
carry the uniform error shape. -/
theorem fetchAPI_non2xx_counterexample :
    JSResponse.ok ⟨404, .ok (.obj [("foo", .str "bar")])⟩ = false ∧
    (BlocksForm.fetchAPI (.gotResponse ⟨404, .ok (.obj [("foo", .str "bar")])⟩)
        "/pan-verification" "GET" none).2 = .resolved (.obj [("foo", .str "bar")]) ∧
    hasErrorShape (.obj [("foo", .str "bar")]) = false :=
  ⟨by decide, rfl, by decide⟩

/-- C1 amended: in the part_000 variant every non-2xx response resolves
with the uniform API_ERROR record, never the raw body; the blocks/form
variant does not check the status, so a non-2xx response whose body
decodes resolves with the raw decoded body. -/
theorem fetchAPI_non2xx_uniform (endpoint method : String) (body : Option JSBody)
    (headers : List (String × String)) (r : JSResponse)
    (hb : serializableBody body = true) (hok : r.ok = false) :
    (Part000.fetchAPI (.gotResponse r) endpoint method body headers).2
      = .resolved (Part000.apiErrorRecord
          ("API call failed with status: " ++ toString r.status)) ∧
    hasErrorShape (Part000.apiErrorRecord
      ("API call failed with status: " ++ toString r.status)) = true ∧
    ∀ v, r.decode = .ok v →
      (BlocksForm.fetchAPI (.gotResponse r) endpoint method body).2 = .resolved v := by
  refine ⟨?_, rfl, ?_⟩
  · cases body with
    | none =>
      simp [Part000.fetchAPI, jsFetch, JSPromise.thenBind, hok, JSPromise.catchWith]
    | some b =>
      cases b with
      | json v =>
        simp [Part000.fetchAPI, jsFetch, JSPromise.thenBind, hok, JSPromise.catchWith]
      | unserializable m => simp [serializableBody] at hb
  · intro v hv
    cases body with
    | none =>
      simp [BlocksForm.fetchAPI, jsFetch, JSPromise.thenBind, responseJson, hv,
        JSPromise.catchWith]
    | some b =>
      cases b with
      | json u =>
        simp [BlocksForm.fetchAPI, jsFetch, JSPromise.thenBind, responseJson, hv,
          JSPromise.catchWith]
      | unserializable m => simp [serializableBody] at hb

/-- Witness for the amended C1 at a concrete 404 response. -/
theorem fetchAPI_non2xx_uniform_witness :
    serializableBody none = true ∧
    JSResponse.ok ⟨404, .ok .nullV⟩ = false ∧
    ((Part000.fetchAPI (.gotResponse ⟨404, .ok .nullV⟩) "/pl" "GET" none []).2
       = .resolved (Part000.apiErrorRecord
           ("API call failed with status: " ++ toString (JSResponse.mk 404 (.ok .nullV)).status)) ∧
     hasErrorShape (Part000.apiErrorRecord
       ("API call failed with status: " ++ toString (JSResponse.mk 404 (.ok .nullV)).status)) = true ∧
     ∀ v, (JSResponse.mk 404 (.ok .nullV)).decode = .ok v →
       (BlocksForm.fetchAPI (.gotResponse ⟨404, .ok .nullV⟩) "/pl" "GET" none).2
         = .resolved v) :=
  ⟨by decide, by decide,
   fetchAPI_non2xx_uniform "/pl" "GET" none [] ⟨404, .ok .nullV⟩ (by decide) (by decide)⟩

/-- C2: in both variants, when the transport fails (the fetch promise
rejects) or the body fails JSON decoding, fetchAPI resolves -- never
rejects -- with an object carrying an error code field and a
human-readable message field. -/
theorem fetchAPI_failure_resolves (endpoint method : String) (body : Option JSBody)
    (headers : List (String × String)) (w : FetchOutcome)
    (hb : serializableBody body = true) (hw : transportOrDecodeFails w = true) :
    (∃ v, (BlocksForm.fetchAPI w endpoint method body).2 = .resolved v ∧
       hasErrorShape v = true) ∧
    (∃ v, (Part000.fetchAPI w endpoint method body headers).2 = .resolved v ∧
       hasErrorShape v = true) := by
  have hbody : body = none ∨ ∃ u, body = some (.json u) := by
    cases body with
    | none => exact Or.inl rfl
    | some b =>
      cases b with
      | json u => exact Or.inr ⟨u, rfl⟩
      | unserializable m => simp [serializableBody] at hb
  cases w with
  | networkError m =>
    constructor
    · refine ⟨BlocksForm.networkErrorRecord, ?_, by decide⟩
      rcases hbody with h | ⟨u, h⟩ <;> subst h <;> rfl
    · refine ⟨Part000.apiErrorRecord m, ?_, rfl⟩
      rcases hbody with h | ⟨u, h⟩ <;> subst h <;> rfl
  | gotResponse r =>
    obtain ⟨m, hd⟩ : ∃ m, r.decode = .err m := by
      cases hd : r.decode with
      | ok v => simp [transportOrDecodeFails, hd] at hw
      | err m => exact ⟨m, rfl⟩
    constructor
    · refine ⟨BlocksForm.networkErrorRecord, ?_, by decide⟩
      rcases hbody with h | ⟨u, h⟩ <;> subst h <;>
        simp [BlocksForm.fetchAPI, jsFetch, JSPromise.thenBind, responseJson, hd,
          JSPromise.catchWith]
    · cases hok : r.ok with
      | true =>
        refine ⟨Part000.apiErrorRecord m, ?_, rfl⟩
        rcases hbody with h | ⟨u, h⟩ <;> subst h <;>
          simp [Part000.fetchAPI, jsFetch, JSPromise.thenBind, responseJson, hd, hok,
            JSPromise.catchWith]
      | false =>
        refine ⟨Part000.apiErrorRecord
          ("API call failed with status: " ++ toString r.status), ?_, rfl⟩
        rcases hbody with h | ⟨u, h⟩ <;> subst h <;>
          simp [Part000.fetchAPI, jsFetch, JSPromise.thenBind, hok, JSPromise.catchWith]

/-- Witness for C2 at a concrete network failure. -/
theorem fetchAPI_failure_resolves_witness :
    serializableBody none = true ∧
    transportOrDecodeFails (.networkError "Failed to fetch") = true ∧
    ((∃ v, (BlocksForm.fetchAPI (.networkError "Failed to fetch") "/pl" "GET" none).2
        = .resolved v ∧ hasErrorShape v = true) ∧
     (∃ v, (Part000.fetchAPI (.networkError "Failed to fetch") "/pl" "GET" none []).2
        = .resolved v ∧ hasErrorShape v = true)) :=
  ⟨by decide, by decide,
   fetchAPI_failure_resolves "/pl" "GET" none [] (.networkError "Failed to fetch")
     (by decide) (by decide)⟩

/-- C7: the two upload wrappers bypass the JSON dispatcher: each issues a
POST whose body is the FormData payload itself, with no serialized JSON
text and no Content-Type header. -/
theorem upload_bypasses_json (w : FetchOutcome) (formData : FormData) :
    (Part000.uploadDocument w formData).1.method = "POST" ∧
    (Part000.uploadDocument w formData).1.body = .form formData ∧
    (Part000.uploadDocument w formData).1.headers.lookup "Content-Type" = none ∧
    (Part000.uploadDocument w formData).1.url = Part000.API_BASE_URL ++ "/doc" ∧
    (Part000.uploadMultipleDocuments w formData).1.method = "POST" ∧
    (Part000.uploadMultipleDocuments w formData).1.body = .form formData ∧
    (Part000.uploadMultipleDocuments w formData).1.headers.lookup "Content-Type" = none ∧
    (Part000.uploadMultipleDocuments w formData).1.url = Part000.API_BASE_URL ++ "/docs" :=
  ⟨rfl, rfl, rfl, rfl, rfl, rfl, rfl, rfl⟩

/-- C8: each endpoint wrapper issues exactly one request with its fixed
verb-and-path pair and a flat JSON body of its named parameters:
generateOTP POSTs /otp/generation with body containing mobileNo,
getDocumentById GETs /doc/:id with no body, and
deleteAllPersonalLoanRequests DELETEs /pl with no body. -/
theorem wrapper_requests (w : FetchOutcome) (mobileNo : Int) (id : String) :
    (Part000.generateOTP w mobileNo).1 =
      some ⟨Part000.API_BASE_URL ++ "/otp/generation", "POST",
            [("Content-Type", "application/json")],
            .jsonText (stringifyJSValue (.obj [("mobileNo", .num mobileNo)]))⟩ ∧
    (Part000.getDocumentById w id).1 =
      some ⟨Part000.API_BASE_URL ++ ("/doc/" ++ id), "GET",
            [("Content-Type", "application/json")], .empty⟩ ∧
    (Part000.deleteAllPersonalLoanRequests w).1 =
      some ⟨Part000.API_BASE_URL ++ "/pl", "DELETE",
            [("Content-Type", "application/json")], .empty⟩ :=
  ⟨rfl, rfl, rfl⟩

/-- C9: when request construction throws before the network call (a body
on which JSON.stringify throws), both fetchAPI variants still return an
already-resolved promise carrying the uniform error record, and hand no
request to fetch. -/
theorem fetchAPI_sync_throw_resolves (w : FetchOutcome) (endpoint method m : String)
    (headers : List (String × String)) :
    BlocksForm.fetchAPI w endpoint method (some (.unserializable m))
      = (none, .resolved BlocksForm.networkErrorRecord) ∧
    Part000.fetchAPI w endpoint method (some (.unserializable m)) headers
      = (none, .resolved (Part000.apiErrorRecord m)) ∧
    hasErrorShape BlocksForm.networkErrorRecord = true ∧
    hasErrorShape (Part000.apiErrorRecord m) = true :=
  ⟨rfl, rfl, by decide, rfl⟩

/-- C10: in the part_000 variant every failure path (network error,
non-2xx status, or decode failure) resolves with the record whose code
field is API_ERROR and whose value field is 500, regardless of the real
HTTP status; only the message string varies with the cause. -/
theorem part000_error_code_fixed (endpoint method : String) (body : Option JSBody)
    (headers : List (String × String)) (w : FetchOutcome)
    (hb : serializableBody body = true) (hw : part000Fails w = true) :
    ∃ msg, (Part000.fetchAPI w endpoint method body headers).2
        = .resolved (Part000.apiErrorRecord msg) ∧
      lookupField "code" (Part000.apiErrorRecord msg) = some (.str "API_ERROR") ∧
      lookupField "value" (Part000.apiErrorRecord msg) = some (.num 500) := by
  have hbody : body = none ∨ ∃ u, body = some (.json u) := by
    cases body with
    | none => exact Or.inl rfl
    | some b =>
      cases b with
      | json u => exact Or.inr ⟨u, rfl⟩
      | unserializable m => simp [serializableBody] at hb
  cases w with
  | networkError m =>
    refine ⟨m, ?_, rfl, rfl⟩
    rcases hbody with h | ⟨u, h⟩ <;> subst h <;> rfl
  | gotResponse r =>
    cases hok : r.ok with
    | false =>
      refine ⟨"API call failed with status: " ++ toString r.status, ?_, rfl, rfl⟩
      rcases hbody with h | ⟨u, h⟩ <;> subst h <;>
        simp [Part000.fetchAPI, jsFetch, JSPromise.thenBind, hok, JSPromise.catchWith]
    | true =>
      obtain ⟨m, hd⟩ : ∃ m, r.decode = .err m := by
        cases hd : r.decode with
        | ok v => simp [part000Fails, hd, hok] at hw
        | err m => exact ⟨m, rfl⟩
      refine ⟨m, ?_, rfl, rfl⟩
      rcases hbody with h | ⟨u, h⟩ <;> subst h <;>
        simp [Part000.fetchAPI, jsFetch, JSPromise.thenBind, responseJson, hd, hok,
          JSPromise.catchWith]

/-- Witness for C10 at a concrete 404 response. -/
theorem part000_error_code_fixed_witness :
    serializableBody none = true ∧
    part000Fails (.gotResponse ⟨404, .ok .nullV⟩) = true ∧
    ∃ msg, (Part000.fetchAPI (.gotResponse ⟨404, .ok .nullV⟩) "/pl" "GET" none []).2
        = .resolved (Part000.apiErrorRecord msg) ∧
      lookupField "code" (Part000.apiErrorRecord msg) = some (.str "API_ERROR") ∧
      lookupField "value" (Part000.apiErrorRecord msg) = some (.num 500) :=
  ⟨by decide, by decide,
   part000_error_code_fixed "/pl" "GET" none [] (.gotResponse ⟨404, .ok .nullV⟩)
     (by decide) (by decide)⟩
